import Mathlib

/-!
# Verification development for the RRR import-list server

Shallow embedding of the JavaScript sources of the repository
(`server.js`, which contains two concatenated server variants, and the
helpers they define).  JavaScript values appearing in the image
normalizer are modelled by the inductive type `JsVal`; JavaScript
truthiness, the `||` operator, `Number(...)` on decimal-integer strings,
and `String(...)` coercion are modelled explicitly.  HTTP calls to the
external Radarr/Sonarr services are modelled as oracle structures whose
fields give each endpoint's response (`Except HttpErr _`, the error
carrying the rejection payload exactly as the code observes it through
`err.response?.data` and `err.message`).  Numeric JSON values are
modelled as `Int` (the ids involved are integers); `Number(...)` applied
to a non-numeric string (JavaScript `NaN`) is modelled as `none`.
-/

namespace RRR

/-! ### Executable string primitives

The JS string operations used by the code (`trim`, `startsWith`,
`toLowerCase`, regex substring test, `Number(...)` parsing) are implemented
here over the character list of a `String`, so that every definition in this
file evaluates inside the kernel. -/

/-- Whitespace trimmed by JS `trim()` (the ASCII whitespace actually
occurring in the data handled here). -/
def isJsWhite (c : Char) : Bool :=
  c == ' ' || c == '\t' || c == '\n' || c == '\r'

/-- `s.trim()`. -/
def strTrim (s : String) : String :=
  ⟨((s.data.dropWhile isJsWhite).reverse.dropWhile isJsWhite).reverse⟩

/-- `s.startsWith(p)`. -/
def strStartsWith (s p : String) : Bool := p.data.isPrefixOf s.data

/-- `s.toLowerCase()` (ASCII). -/
def strToLower (s : String) : String := ⟨s.data.map Char.toLower⟩

/-- Whether `p` occurs as a contiguous segment of `l`. -/
def charsInfix (p : List Char) : List Char → Bool
  | [] => p.isEmpty
  | c :: t => p.isPrefixOf (c :: t) || charsInfix p t

/-- Whether `pat` occurs as a substring of `s`. -/
def strContains (s pat : String) : Bool := charsInfix pat.data s.data

/-- Value of a non-empty all-digit character run. -/
def digitsVal : List Char → Option Nat
  | [] => none
  | cs =>
    if cs.all Char.isDigit then
      some (cs.foldl (fun a c => a * 10 + (c.toNat - 48)) 0)
    else none

/-- JS truthiness of a possibly-absent string (`undefined`/`''` are falsy). -/
def truthyS : Option String → Bool
  | some s => s != ""
  | none => false

/-- JS truthiness of a possibly-absent integer number (`undefined`/`0` are falsy;
`NaN`, also falsy in JS, is modelled by `none`). -/
def truthyI : Option Int → Bool
  | some n => n != 0
  | none => false

/-- JS `a || b` on possibly-absent strings. -/
def jsOr (a b : Option String) : Option String := if truthyS a then a else b

/-- JS `Number(s)` for a string, modelled on decimal-integer literals:
the empty/whitespace string gives `0`, a decimal integer parses, anything
else is `NaN` (`none`). -/
def jsNumber (s : String) : Option Int :=
  match (strTrim s).data with
  | [] => some 0
  | '-' :: rest => (digitsVal rest).map (fun n => -(n : Int))
  | '+' :: rest => (digitsVal rest).map (fun n => (n : Int))
  | cs => (digitsVal cs).map (fun n => (n : Int))

/-- JS `Number(x)` where `x` is a possibly-absent string (`Number(undefined)` is `NaN`). -/
def jsNumberOf : Option String → Option Int
  | some s => jsNumber s
  | none => none

/-- JS `Number(a) === Number(b)` on possibly-absent integers: `NaN` (absent)
compares unequal to everything, including itself. -/
def numEq : Option Int → Option Int → Bool
  | some a, some b => a == b
  | _, _ => false

/-- Case-insensitive substring test, modelling `/already been added/i.test(s)`
(the pattern is a plain lowercase literal, so lowercasing the subject suffices). -/
def containsCI (s pat : String) : Bool := strContains (strToLower s) pat

/-- The process environment variables read by the code (absent = `undefined`). -/
structure Env where
  serverProtocol : Option String := none
  radarrRoot : Option String := none
  radarrQualityProfileId : Option String := none
  sonarrRoot : Option String := none
  sonarrRootPath : Option String := none
  sonarrQualityProfileId : Option String := none
  basicAuthUser : Option String := none
  basicAuthPass : Option String := none
  telegramToken : Option String := none
  telegramNotifyChatId : Option String := none
deriving Repr, DecidableEq

/-! ## JavaScript values (for the image normalizer) -/

/-- A JSON-shaped JavaScript value, plus `undefined`. -/
inductive JsVal where
  | undefined
  | null
  | bool (b : Bool)
  | num (n : Int)
  | str (s : String)
  | arr (elems : List JsVal)
  | obj (fields : List (String × JsVal))

/-- JS truthiness. Objects and arrays (even empty ones) are truthy. -/
def JsVal.truthy : JsVal → Bool
  | .undefined => false
  | .null => false
  | .bool b => b
  | .num n => n != 0
  | .str s => s != ""
  | .arr _ => true
  | .obj _ => true

/-- `typeof v === 'object'`: true for objects, arrays and `null`. -/
def JsVal.typeofObject : JsVal → Bool
  | .null => true
  | .obj _ => true
  | .arr _ => true
  | _ => false

/-- Property read `v[k]` on a non-`null`, non-`undefined` value: a missing key
(and any key on a primitive or an array, which carries no own string keys in
the data handled here) reads as `undefined`. -/
def JsVal.getField : JsVal → String → JsVal
  | .obj fs, k =>
    match fs.find? (fun p => p.1 == k) with
    | some p => p.2
    | none => .undefined
  | _, _ => .undefined

/-- JS `a || b` on values. -/
def jsOrV (a b : JsVal) : JsVal := if a.truthy then a else b

mutual

/-- JS `String(v)` coercion: `String(null) = "null"`,
`String(undefined) = "undefined"`, arrays join their elements with `","`
(with `null`/`undefined` elements becoming the empty string), plain objects
give `"[object Object]"`. -/
def jsToString : JsVal → String
  | .undefined => "undefined"
  | .null => "null"
  | .bool true => "true"
  | .bool false => "false"
  | .num n => toString n
  | .str s => s
  | .arr xs => jsJoin xs
  | .obj _ => "[object Object]"

/-- `Array.prototype.join(",")` as used by `String(array)`. -/
def jsJoin : List JsVal → String
  | [] => ""
  | x :: xs =>
    let hd := match x with
      | .undefined => ""
      | .null => ""
      | v => jsToString v
    match xs with
    | [] => hd
    | _ => hd ++ "," ++ jsJoin xs

end

/-! ## Image/URL normalizer (`makeImageUrl`, `makeImageUrlsArray`, first server variant) -/

/-- The URL-prefixing rules of `makeImageUrl` applied to a trimmed non-empty
string (`server.js` lines 107-110). -/
def resolveUrlString (env : Env) (s : String) : String :=
  if strStartsWith s "http://" || strStartsWith s "https://" then s
  else if strStartsWith s "//" then ((jsOr env.serverProtocol (some "https:")).getD "https:") ++ s
  else if strStartsWith s "/" then "https://image.tmdb.org/t/p/w500" ++ s
  else s

/-- The tail of `makeImageUrl` after array/object unwrapping: falsiness check,
`String(...).trim()`, emptiness check, URL resolution. -/
def afterExtract (env : Env) (img : JsVal) : Option String :=
  if !img.truthy then none
  else if strTrim (jsToString img) = "" then none
  else some (resolveUrlString env (strTrim (jsToString img)))

/-- `img.remoteUrl || img.url || img.coverUrl || img.posterPath ||
img.backdropPath || img.path || img.imagePath` (`makeImageUrl`, line 102). -/
def urlFieldChain (v : JsVal) : JsVal :=
  jsOrV (v.getField "remoteUrl") (jsOrV (v.getField "url") (jsOrV (v.getField "coverUrl")
    (jsOrV (v.getField "posterPath") (jsOrV (v.getField "backdropPath")
      (jsOrV (v.getField "path") (v.getField "imagePath"))))))

/-- `if (Array.isArray(img) && img.length) img = img[0]` (line 100). -/
def arrayFirst (v : JsVal) : JsVal :=
  match v with
  | .arr (x :: _) => x
  | _ => v

/-- Body of `makeImageUrl` with the exception behaviour explicit: reading a
property of `null` (reachable when a non-empty array's first element is
`null`, since `typeof null === 'object'`) throws, modelled as `.error ()`. -/
def makeImageUrlBody (env : Env) (img0 : JsVal) : Except Unit (Option String) :=
  if !img0.truthy then .ok none
  else if (arrayFirst img0).typeofObject then
    match arrayFirst img0 with
    | .null => .error ()
    | v => .ok (afterExtract env (urlFieldChain v))
  else .ok (afterExtract env (arrayFirst img0))

/-- `makeImageUrl` (first server variant, lines 97-114): the whole body is
wrapped in `try { ... } catch (e) { return null; }`. -/
def makeImageUrl (env : Env) (img : JsVal) : Option String :=
  match makeImageUrlBody env img with
  | .ok r => r
  | .error _ => none

/-- `.filter(Boolean)` step on the mapped results: drops `null` and the empty
string. -/
def jsFilterBool : Option String → Option String
  | some s => if s = "" then none else some s
  | none => none

/-- `maybeImgs.remoteUrl || maybeImgs.url || maybeImgs.coverUrl ||
maybeImgs.posterPath || maybeImgs.backdropPath || maybeImgs.path`
(`makeImageUrlsArray`, line 125 — note: no `imagePath` here). -/
def objectImagesCandidate (v : JsVal) : JsVal :=
  jsOrV (v.getField "remoteUrl") (jsOrV (v.getField "url") (jsOrV (v.getField "coverUrl")
    (jsOrV (v.getField "posterPath") (jsOrV (v.getField "backdropPath") (v.getField "path")))))

/-- Body of `makeImageUrlsArray` (lines 117-135) with its `try` modelled in
`Except`; the per-element calls go through `makeImageUrl`, which contains its
own catch and hence never throws into this body. -/
def makeImageUrlsArrayBody (env : Env) (maybeImgs : JsVal) : Except Unit (List String) :=
  if !maybeImgs.truthy then .ok []
  else
    match maybeImgs with
    | .arr xs => .ok ((xs.map (makeImageUrl env)).filterMap jsFilterBool)
    | .obj fs =>
      match makeImageUrl env (objectImagesCandidate (.obj fs)) with
      | some s => .ok (if s = "" then [] else [s])
      | none => .ok []
    | v =>
      match makeImageUrl env (.str (jsToString v)) with
      | some s => .ok (if s = "" then [] else [s])
      | none => .ok []

/-- `makeImageUrlsArray`: catch wrapper returning `[]` on an escaped exception. -/
def makeImageUrlsArray (env : Env) (v : JsVal) : List String :=
  match makeImageUrlsArrayBody env v with
  | .ok l => l
  | .error _ => []

/-! ## Basic auth middleware (`requireBasicAuth`, first variant lines 64-73) -/

/-- Parsed `Authorization: Basic` credentials as produced by the `basic-auth`
package (absent when the header is missing or malformed). -/
structure Credentials where
  name : String
  pass : String
deriving Repr, DecidableEq

/-- The middleware's decision. -/
inductive AuthResult where
  | next
  | unauthorized
deriving Repr, DecidableEq

/-- Line 67: `user && user.name === process.env.BASIC_AUTH_USER && user.pass
=== process.env.BASIC_AUTH_PASS` (`===` against an unset variable is never
true). -/
def credentialsOk (env : Env) (user : Option Credentials) : Bool :=
  match user with
  | some u => some u.name == env.basicAuthUser && some u.pass == env.basicAuthPass
  | none => false

/-- `requireBasicAuth` (lines 64-73): skip the check when `BASIC_AUTH_USER`
is falsy (unset or empty); otherwise admit exactly matching credentials and
401 everything else. -/
def requireBasicAuth (env : Env) (user : Option Credentials) : AuthResult :=
  if !truthyS env.basicAuthUser then .next
  else if credentialsOk env user then .next else .unauthorized

/-! ## Service data model and rejection payloads -/

/-- One element of a structured error array returned by Radarr/Sonarr on a
rejected add (the fields the code reads; `propertyValue` stands for
`formattedMessagePlaceholderValues?.propertyValue`). -/
structure ErrElem where
  errorCode : Option String := none
  errorMessage : Option String := none
  propertyValue : Option Int := none
deriving Repr, DecidableEq

/-- The value the code observes as `err.response?.data`: no response body or
a falsy one (`noData`, also covering plain transport failures), a truthy
non-array body, or an array of structured error elements (an empty array is
still truthy). -/
inductive RespData where
  | noData
  | nonArray
  | arr (es : List ErrElem)
deriving Repr, DecidableEq

/-- An axios-style error as the code inspects it: the optional response data
plus `err.message`. -/
structure HttpErr where
  data : RespData := .noData
  message : String := ""
deriving Repr, DecidableEq

/-- `err.response?.data || err.message` as serialized into a 500 response. -/
inductive ErrDetails where
  | fromData (d : RespData)
  | fromMessage (s : String)
deriving Repr, DecidableEq

/-- `err.response?.data || err.message` (an empty message is falsy, but the
code passes the falsy value through unchanged, so it is kept here). -/
def HttpErr.details (e : HttpErr) : ErrDetails :=
  if e.data != RespData.noData then .fromData e.data else .fromMessage e.message

/-- `errors.find(e => e.errorCode === 'MovieExistsValidator' ||
/already been added/i.test(e.errorMessage || ''))` applied to
`Array.isArray(data) ? data : []`. -/
def existsSignal (d : RespData) : Option ErrElem :=
  match d with
  | .arr es => es.find? (fun e =>
      e.errorCode == some "MovieExistsValidator" ||
      containsCI (e.errorMessage.getD "") "already been added")
  | _ => none

/-- A Radarr movie record (the fields the code reads). -/
structure Movie where
  id : Option Int := none
  tmdbId : Option Int := none
  title : Option String := none
  titleSlug : Option String := none
  originalTitle : Option String := none
deriving Repr, DecidableEq

/-- A Sonarr series record (the fields the code reads). -/
structure Series where
  id : Option Int := none
  tvdbId : Option Int := none
  imdbId : Option String := none
  title : Option String := none
deriving Repr, DecidableEq

/-- A Radarr root folder entry. -/
structure RootFolder where
  path : String
deriving Repr, DecidableEq

/-- A quality profile entry. -/
structure QualityProfile where
  id : Int
deriving Repr, DecidableEq

/-- The body posted to `POST /api/v3/movie`. `qualityProfileId` is the result
of a JS `Number(...)` and hence possibly `NaN` (`none`). -/
structure MovieBody where
  tmdbId : Option Int := none
  title : Option String := none
  rootFolderPath : String := ""
  qualityProfileId : Option Int := none
  monitored : Bool := true
deriving Repr, DecidableEq

/-- The body posted to `POST /api/v3/series`. In the interactive handler the
id/title fields are set conditionally; in `sonarrAdd` (second variant)
`rootFolderPath` can be absent when neither `SONARR_ROOT` nor
`SONARR_ROOT_PATH` is configured. -/
structure SeriesBody where
  tvdbId : Option Int := none
  imdbId : Option String := none
  title : Option String := none
  qualityProfileId : Option Int := none
  rootFolderPath : Option String := none
  monitored : Bool := true
  seasonFolder : Bool := true
deriving Repr, DecidableEq

/-- Oracle for the Radarr HTTP endpoints the code calls.  Endpoints whose
responses the code immediately shapes with `Array.isArray(data) ? ... : ...`
are modelled as returning lists (a single-object response behaves downstream
like a singleton list). -/
structure RadarrSvc where
  rootfolder : Except HttpErr (List RootFolder) := .ok []
  qualityprofile : Except HttpErr (List QualityProfile) := .ok []
  postMovie : MovieBody → Except HttpErr Movie := fun _ => .error {}
  getMovieByTmdb : Option Int → Except HttpErr (List Movie) := fun _ => .ok []
  lookupImdb : String → Except HttpErr (List Movie) := fun _ => .ok []
  lookupTmdb : Option String → Except HttpErr (List Movie) := fun _ => .ok []
  lookupTerm : String → Except HttpErr (List Movie) := fun _ => .ok []
  getAllMovies : Except HttpErr (List Movie) := .ok []

/-- Oracle for the Sonarr HTTP endpoints the code calls. -/
structure SonarrSvc where
  rootfolder : Except HttpErr (List RootFolder) := .ok []
  qualityprofile : Except HttpErr (List QualityProfile) := .ok []
  postSeries : SeriesBody → Except HttpErr Series := fun _ => .error {}
  lookupSeries : String → Except HttpErr (List Series) := fun _ => .ok []
  getAllSeries : Except HttpErr (List Series) := .ok []

/-- Result of `radarrGetDefaults` / `sonarrGetDefaults` (first variant):
two lists, empty on any failure (the function catches). -/
structure Meta where
  rootFolders : List RootFolder := []
  qualityProfiles : List QualityProfile := []
deriving Repr, DecidableEq

/-- `radarrGetDefaults` (first variant, lines 141-149): queries both lists,
catching any failure into `{ rootFolders: [], qualityProfiles: [] }`. -/
def radarrGetDefaults1 (svc : RadarrSvc) : Meta :=
  match svc.rootfolder, svc.qualityprofile with
  | .ok rs, .ok qs => ⟨rs, qs⟩
  | _, _ => ⟨[], []⟩

/-- `sonarrGetDefaults` (first variant, lines 150-158). -/
def sonarrGetDefaults1 (svc : SonarrSvc) : Meta :=
  match svc.rootfolder, svc.qualityprofile with
  | .ok rs, .ok qs => ⟨rs, qs⟩
  | _, _ => ⟨[], []⟩

/-! ## Interactive add handlers (first variant) -/

/-- The JSON body of `POST /api/add/movie` (numeric fields modelled as
integers). -/
structure MovieReq where
  tmdbId : Option Int := none
  title : Option String := none
  rootFolderPath : Option String := none
  qualityProfileId : Option Int := none
  monitored : Bool := true
deriving Repr, DecidableEq

/-- The JSON body of `POST /api/add/series`. -/
structure SeriesReq where
  tvdbId : Option Int := none
  imdbId : Option String := none
  title : Option String := none
  rootFolderPath : Option String := none
  qualityProfileId : Option Int := none
  monitored : Bool := true
  seasonFolder : Bool := true
deriving Repr, DecidableEq

/-- First quality-profile id of a metadata result, if any. -/
def firstQpId (meta : Meta) : Option Int := (meta.qualityProfiles.head?).map (·.id)

/-- First root-folder path of a metadata result, if any
(`meta.rootFolders[0] && meta.rootFolders[0].path`). -/
def firstRootPath (meta : Meta) : Option String := (meta.rootFolders.head?).map (·.path)

/-- Line 246: `rootFolderPath || (meta.rootFolders[0] && meta.rootFolders[0].path)
|| process.env.RADARR_ROOT || '/movies'`. -/
def movieRoot (req : MovieReq) (meta : Meta) (env : Env) : String :=
  (jsOr req.rootFolderPath (jsOr (firstRootPath meta) (jsOr env.radarrRoot (some "/movies")))).getD "/movies"

/-- Line 247: `Number(qualityProfileId || process.env.RADARR_QUALITY_PROFILE_ID
|| (meta.qualityProfiles[0] && meta.qualityProfiles[0].id) || 1)` — note the
environment value is tried before the service's first profile. -/
def movieQp (req : MovieReq) (meta : Meta) (env : Env) : Option Int :=
  if truthyI req.qualityProfileId then req.qualityProfileId
  else if truthyS env.radarrQualityProfileId then jsNumberOf env.radarrQualityProfileId
  else if truthyI (firstQpId meta) then firstQpId meta
  else some 1

/-- Line 278: `rootFolderPath || (meta.rootFolders[0] && meta.rootFolders[0].path)
|| process.env.SONARR_ROOT || '/tv'`. -/
def seriesRoot (req : SeriesReq) (meta : Meta) (env : Env) : String :=
  (jsOr req.rootFolderPath (jsOr (firstRootPath meta) (jsOr env.sonarrRoot (some "/tv")))).getD "/tv"

/-- Line 279: `Number(qualityProfileId || process.env.SONARR_QUALITY_PROFILE_ID
|| (meta.qualityProfiles[0] && meta.qualityProfiles[0].id) || 1)`. -/
def seriesQp (req : SeriesReq) (meta : Meta) (env : Env) : Option Int :=
  if truthyI req.qualityProfileId then req.qualityProfileId
  else if truthyS env.sonarrQualityProfileId then jsNumberOf env.sonarrQualityProfileId
  else if truthyI (firstQpId meta) then firstQpId meta
  else some 1

/-- The movie body built at line 248. -/
def movieAddBody (req : MovieReq) (meta : Meta) (env : Env) : MovieBody :=
  { tmdbId := req.tmdbId
    title := if truthyS req.title then req.title else none
    rootFolderPath := movieRoot req meta env
    qualityProfileId := movieQp req meta env
    monitored := req.monitored }

/-- The series body built at lines 280-284: `tvdbId`/`imdbId` only when
truthy, `title` only when truthy and both ids are absent. -/
def seriesAddBody (req : SeriesReq) (meta : Meta) (env : Env) : SeriesBody :=
  { tvdbId := if truthyI req.tvdbId then req.tvdbId else none
    imdbId := if truthyS req.imdbId then req.imdbId else none
    title := if truthyS req.title && !truthyI req.tvdbId && !truthyS req.imdbId then req.title else none
    qualityProfileId := seriesQp req meta env
    rootFolderPath := some (seriesRoot req meta env)
    monitored := req.monitored
    seasonFolder := req.seasonFolder }

/-- Response of the `POST /api/add/movie` handler. -/
inductive MovieResp where
  | badRequest
  | added (m : Movie)
  | existing (m : Movie)
  | failed (details : ErrDetails)
deriving Repr, DecidableEq

/-- Response of the `POST /api/add/series` handler. -/
inductive SeriesResp where
  | badRequest
  | added (s : Series)
  | existing (s : Series)
  | failed (details : ErrDetails)
deriving Repr, DecidableEq

/-- Observable outcome of one interactive movie-add request: the HTTP
response, whether a stored-record reconciliation lookup was attempted,
whether `notifyTelegram` was invoked, and whether it actually attempted the
external send (it skips when token or chat id is unset). -/
structure MovieHandlerOut where
  resp : MovieResp
  reconAttempted : Bool
  notifyCalled : Bool
  notifySendAttempted : Bool
deriving Repr, DecidableEq

/-- Observable outcome of one interactive series-add request. -/
structure SeriesHandlerOut where
  resp : SeriesResp
  reconAttempted : Bool
  notifyCalled : Bool
  notifySendAttempted : Bool
deriving Repr, DecidableEq

/-- `notifyTelegram` (lines 76-90): skipped without credentials; the send and
its failure are confined to the helper (internal try/catch), so only the
trace is observable.  `tgOk` is whether the Telegram POST would succeed. -/
def notifySendAttempt (env : Env) : Bool :=
  truthyS env.telegramToken && truthyS env.telegramNotifyChatId

/-- `POST /api/add/movie` handler (first variant, lines 241-271).  `tgOk`
models the Telegram transport; it is threaded only to exhibit that the
response never depends on it. -/
def addMovieHandler (env : Env) (svc : RadarrSvc) (tgOk : Bool) (req : MovieReq) : MovieHandlerOut :=
  if !truthyI req.tmdbId then ⟨.badRequest, false, false, false⟩
  else
    let meta := radarrGetDefaults1 svc
    let body := movieAddBody req meta env
    match svc.postMovie body with
    | .ok m =>
      let _ := tgOk
      ⟨.added m, false, true, notifySendAttempt env⟩
    | .error e =>
      if e.data != RespData.noData then
        match existsSignal e.data with
        | some ex =>
          let tmdb := if truthyI req.tmdbId then req.tmdbId else ex.propertyValue
          match svc.getMovieByTmdb tmdb with
          | .ok ms =>
            match ms.head? with
            | some m => ⟨.existing m, true, false, false⟩
            | none => ⟨.failed e.details, true, false, false⟩
          | .error _ => ⟨.failed e.details, true, false, false⟩
        | none => ⟨.failed e.details, false, false, false⟩
      else ⟨.failed e.details, false, false, false⟩

/-- `s.title && s.title.toLowerCase() === req.title.toLowerCase()` and the
two id comparisons of lines 295-297. -/
def seriesMatches (req : SeriesReq) (s : Series) : Bool :=
  (truthyI req.tvdbId && numEq s.tvdbId req.tvdbId) ||
  (truthyS req.imdbId && s.imdbId == req.imdbId) ||
  (truthyS req.title && truthyS s.title &&
    strToLower (s.title.getD "") == strToLower (req.title.getD ""))

/-- `POST /api/add/series` handler (first variant, lines 273-303).  On any
rejection that carries truthy response data the handler fetches the full
series inventory and scans it — there is no exists-signal check here. -/
def addSeriesHandler (env : Env) (svc : SonarrSvc) (tgOk : Bool) (req : SeriesReq) : SeriesHandlerOut :=
  if !truthyI req.tvdbId && !truthyS req.imdbId && !truthyS req.title then
    ⟨.badRequest, false, false, false⟩
  else
    let meta := sonarrGetDefaults1 svc
    let body := seriesAddBody req meta env
    match svc.postSeries body with
    | .ok s =>
      let _ := tgOk
      ⟨.added s, false, true, notifySendAttempt env⟩
    | .error e =>
      if e.data != RespData.noData then
        match svc.getAllSeries with
        | .ok all =>
          match all.find? (seriesMatches req) with
          | some m => ⟨.existing m, true, false, false⟩
          | none => ⟨.failed e.details, true, false, false⟩
        | .error _ => ⟨.failed e.details, true, false, false⟩
      else ⟨.failed e.details, false, false, false⟩

/-! ## Second server variant: lookup/add helpers and the batch sync driver -/

/-- `id.startsWith('tt') ? id : 'tt' + id` (IMDb id normalization). -/
def normalizeImdb (imdbId : String) : String :=
  if strStartsWith imdbId "tt" then imdbId else "tt" ++ imdbId

/-- `.then(res => Array.isArray(res.data) ? res.data[0] : res.data)`:
first element of a list response, errors propagated. -/
def firstOfData (r : Except HttpErr (List Movie)) : Except HttpErr (Option Movie) :=
  match r with
  | .ok ds => .ok ds.head?
  | .error e => .error e

/-- `radarrLookup` (second variant, lines 397-401): IMDb lookup, first
element of an array response; errors propagate to the caller. -/
def radarrLookup (svc : RadarrSvc) (imdbId : String) : Except HttpErr (Option Movie) :=
  firstOfData (svc.lookupImdb (normalizeImdb imdbId))

/-- Result of `radarrGetDefaults` (second variant). -/
structure Defaults2 where
  rootFolderPath : String
  qualityProfileId : Option Int
deriving Repr, DecidableEq

/-- `radarrGetDefaults` (second variant, lines 403-414): no catch, so a
failing query propagates.  Root: first returned root's `path` (even if
empty), else `RADARR_ROOT`, else `'/movies'`.  Quality:
`Number(RADARR_QUALITY_PROFILE_ID || (qps.length ? qps[0].id : 1))` — the
environment value, when truthy, wins over the service's first profile. -/
def radarrGetDefaults2 (env : Env) (svc : RadarrSvc) : Except HttpErr Defaults2 :=
  match svc.rootfolder, svc.qualityprofile with
  | .ok roots, .ok qps =>
    .ok
      { rootFolderPath :=
          match roots.head? with
          | some r => r.path
          | none => (jsOr env.radarrRoot (some "/movies")).getD "/movies"
        qualityProfileId :=
          if truthyS env.radarrQualityProfileId then jsNumberOf env.radarrQualityProfileId
          else
            match qps.head? with
            | some q => some q.id
            | none => some 1 }
  | .error e, _ => .error e
  | _, .error e => .error e

/-- A JS `TypeError` from reading a property of `undefined` (no HTTP
response attached). -/
def typeErr : HttpErr := { data := .noData, message := "TypeError" }

/-- Template-literal rendering of a possibly-undefined id. -/
def optIntToString : Option Int → String
  | some n => toString n
  | none => "undefined"

/-- `const tmdbId = movie.tmdbId || existsErr.formattedMessagePlaceholderValues?.propertyValue`
(line 443). -/
def reconTmdbId (m : Movie) (existsErr : ErrElem) : Option Int :=
  if truthyI m.tmdbId then m.tmdbId else existsErr.propertyValue

/-- The inner fetch chain of `radarrAdd`'s exists branch (lines 441-473):
`reconTmdbId` is the local `tmdbId` constant; three ordered strategies
(filtered query by tmdbId, free-text lookup filtered for an exact id match,
full-inventory scan); when all fail the ORIGINAL rejection is rethrown. -/
def radarrAddFetchExisting (svc : RadarrSvc) (movie : Option Movie)
    (existsErr : ErrElem) (origErr : HttpErr) : Except HttpErr Movie :=
  match movie with
  | none => .error typeErr
  | some m =>
    match svc.getMovieByTmdb (reconTmdbId m existsErr) with
    | .error e => .error e
    | .ok found =>
      match found.head? with
      | some mv => .ok mv
      | none =>
        match svc.lookupTerm ("tmdb:" ++ optIntToString (reconTmdbId m existsErr)) with
        | .error e => .error e
        | .ok snd =>
          match (if snd.length != 0 then
              snd.find? (fun it => numEq it.tmdbId (reconTmdbId m existsErr))
            else none) with
          | some mt =>
            match svc.getAllMovies with
            | .error e => .error e
            | .ok all =>
              match all.find? (fun mv => numEq mv.tmdbId (reconTmdbId m existsErr)) with
              | some stored => .ok stored
              | none => .ok mt
          | none =>
            match svc.getAllMovies with
            | .error e => .error e
            | .ok allRes =>
              match allRes.find? (fun mv => numEq mv.tmdbId m.tmdbId) with
              | some stored => .ok stored
              | none => .error origErr

/-- The `try` block of `radarrAdd` (lines 417-429): fetch defaults (failures
propagate), read `movie.tmdbId` (a `TypeError` when the argument is
`undefined`), post the add request. -/
def radarrAddTry (env : Env) (svc : RadarrSvc) (movie : Option Movie) : Except HttpErr Movie :=
  match radarrGetDefaults2 env svc with
  | .error e => .error e
  | .ok defaults =>
    match movie with
    | none => .error typeErr
    | some mv =>
      svc.postMovie
        { tmdbId := mv.tmdbId
          title := jsOr mv.title (jsOr mv.titleSlug (jsOr mv.originalTitle mv.title))
          rootFolderPath := defaults.rootFolderPath
          qualityProfileId := defaults.qualityProfileId
          monitored := true }

/-- `radarrAdd` (second variant, lines 416-484).  The argument may be
`undefined` when the caller's second lookup came back empty; reading
`movie.tmdbId` then throws.  On a rejection carrying the exists signal the
three-strategy fetch runs; any failure of that fetch — including the
explicit `throw error` when nothing was found — results in the ORIGINAL
rejection being rethrown (`catch (fetchErr) { throw error; }`). -/
def radarrAdd (env : Env) (svc : RadarrSvc) (movie : Option Movie) : Except HttpErr Movie :=
  match radarrAddTry env svc movie with
  | .ok m => .ok m
  | .error origErr =>
    if origErr.data != RespData.noData then
      match existsSignal origErr.data with
      | some existsErr =>
        match radarrAddFetchExisting svc movie existsErr origErr with
        | .ok m => .ok m
        | .error _ => .error origErr
      | none => .error origErr
    else .error origErr

/-- `sonarrLookupImdb` (second variant, lines 486-494): the whole body is in
a try whose catch only logs, so a transport failure returns `undefined`. -/
def sonarrLookupImdb (svc : SonarrSvc) (imdbId : String) : Option Series :=
  let val := if strStartsWith imdbId "tt" then "imdb:" ++ imdbId else "imdb:tt" ++ imdbId
  match svc.lookupSeries val with
  | .ok ds => ds.head?
  | .error _ => none

/-- The body built by `sonarrAdd` (second variant, lines 497-505): root
straight from `SONARR_ROOT || SONARR_ROOT_PATH` (possibly absent), quality
`Number(SONARR_QUALITY_PROFILE_ID || 1)`. -/
def sonarrAddBody (env : Env) (series : Series) : SeriesBody :=
  { tvdbId := some (if truthyI series.tvdbId then series.tvdbId.getD 0 else 0)
    imdbId := none
    title := series.title
    qualityProfileId :=
      if truthyS env.sonarrQualityProfileId then jsNumberOf env.sonarrQualityProfileId
      else some 1
    rootFolderPath := jsOr env.sonarrRoot env.sonarrRootPath
    monitored := true
    seasonFolder := true }

/-- `sonarrAdd` (second variant, lines 495-511): the try/catch only logs, so
a rejected POST yields `undefined` — the caller cannot observe the failure. -/
def sonarrAdd (env : Env) (svc : SonarrSvc) (series : Series) : Option Series :=
  match svc.postSeries (sonarrAddBody env series) with
  | .ok d => some d
  | .error _ => none

/-- A stored list item (`{source, id, date}`). -/
structure Item where
  source : String
  id : String
  date : String := ""
deriving Repr, DecidableEq

/-- The `reason` field of a sync outcome: the literal strings
`'not found'` / `'unsupported'`, or `err?.response?.data || err.message ||
'error'` for a caught failure. -/
inductive SyncReason where
  | notFound
  | unsupported
  | errData (d : RespData)
  | errMessage (m : String)
  | errorFallback
deriving Repr, DecidableEq

/-- `err?.response?.data || err.message || 'error'`. -/
def reasonOfErr (e : HttpErr) : SyncReason :=
  if e.data != RespData.noData then .errData e.data
  else if e.message != "" then .errMessage e.message
  else .errorFallback

/-- One per-item sync outcome (`{item, ok, reason?}`). -/
structure Outcome where
  item : Item
  ok : Bool
  reason : Option SyncReason := none
deriving Repr, DecidableEq

/-- The body of one iteration of the sync loop (lines 586-605), before the
per-item catch.  The radarr path propagates lookup/add failures; the sonarr
path cannot fail (both helpers swallow errors internally). -/
def syncStepBody (env : Env) (rsvc : RadarrSvc) (ssvc : SonarrSvc)
    (target : String) (item : Item) : Except HttpErr Outcome :=
  if target == "radarr" && (item.source == "imdb" || item.source == "tmdb") then
    match (if item.source == "imdb" then radarrLookup rsvc item.id
           else firstOfData (rsvc.lookupTmdb (some item.id))) with
    | .error e => .error e
    | .ok none => .ok ⟨item, false, some .notFound⟩
    | .ok (some lk) =>
      match (if truthyI lk.tmdbId then .ok (some lk)
             else firstOfData (rsvc.lookupTmdb (lk.tmdbId.map toString))) with
      | .error e => .error e
      | .ok movie =>
        match radarrAdd env rsvc movie with
        | .error e => .error e
        | .ok _ => .ok ⟨item, true, none⟩
  else if target == "sonarr" && item.source == "imdb" then
    match sonarrLookupImdb ssvc item.id with
    | none => .ok ⟨item, false, some .notFound⟩
    | some lk =>
      match sonarrAdd env ssvc lk with
      | _ => .ok ⟨item, true, none⟩
  else .ok ⟨item, false, some .unsupported⟩

/-- One iteration with its catch (lines 602-604): a thrown failure is
captured as this item's error outcome and the loop continues. -/
def syncStep (env : Env) (rsvc : RadarrSvc) (ssvc : SonarrSvc)
    (target : String) (item : Item) : Outcome :=
  match syncStepBody env rsvc ssvc target item with
  | .ok o => o
  | .error e => ⟨item, false, some (reasonOfErr e)⟩

/-- `POST /api/sync/:target/:name` core loop (lines 585-606): sequential
iteration over the stored items, one outcome pushed per item. -/
def syncList (env : Env) (rsvc : RadarrSvc) (ssvc : SonarrSvc)
    (target : String) (items : List Item) : List Outcome :=
  items.map (syncStep env rsvc ssvc target)

/-! ## Shared helper lemmas -/

/-- A JS `||` of two values is falsy exactly when both operands are. -/
theorem jsOrV_truthy_false {a b : JsVal} :
    (jsOrV a b).truthy = false ↔ a.truthy = false ∧ b.truthy = false := by
  unfold jsOrV
  cases h : a.truthy <;> simp [h]

/-- Appending to a non-empty string stays non-empty. -/
theorem append_ne_empty_right {a s : String} (h : s ≠ "") : a ++ s ≠ "" := by
  intro he
  apply h
  have hd : (a ++ s).data = a.data ++ s.data := String.data_append a s
  rw [he] at hd
  have h0 : a.data ++ s.data = ([] : List Char) := by
    rw [← hd]
  have h2 : s.data = [] := (List.append_eq_nil.mp h0).2
  apply String.ext
  rw [h2]

/-- `resolveUrlString` never turns a non-empty string into the empty one. -/
theorem resolveUrlString_ne_empty (env : Env) {s : String} (h : s ≠ "") :
    resolveUrlString env s ≠ "" := by
  unfold resolveUrlString
  split
  · exact h
  · split
    · exact append_ne_empty_right h
    · split
      · exact append_ne_empty_right h
      · exact h

/-- The trim-and-resolve tail of `makeImageUrl` never returns the empty
string. -/
theorem afterExtract_ne_some_empty (env : Env) (w : JsVal) :
    afterExtract env w ≠ some "" := by
  unfold afterExtract
  split
  · simp
  · split
    · simp
    · next hs =>
      intro hEq
      exact resolveUrlString_ne_empty env hs (Option.some.inj hEq)

/-- `makeImageUrl` never returns the empty string (the code nulls it out). -/
theorem makeImageUrl_ne_some_empty (env : Env) (v : JsVal) :
    makeImageUrl env v ≠ some "" := by
  unfold makeImageUrl
  cases hb : makeImageUrlBody env v with
  | error e => simp
  | ok r =>
    unfold makeImageUrlBody at hb
    split at hb
    · cases hb
      simp
    · split at hb
      · split at hb
        · cases hb
        · cases hb
          exact afterExtract_ne_some_empty env _
      · cases hb
        exact afterExtract_ne_some_empty env _

/-! ## C10 — basic auth -/

/-- C10 (amended): when `BASIC_AUTH_USER` is falsy (unset or empty) every
request is admitted, regardless of credentials; when it is set to a
non-empty value, a request is admitted exactly when credentials were parsed,
the username equals `BASIC_AUTH_USER`, and `BASIC_AUTH_PASS` is set and
equals the supplied password; otherwise the middleware returns a 401
challenge. -/
theorem requireBasicAuth_characterization (env : Env) (user : Option Credentials) :
    (truthyS env.basicAuthUser = false → requireBasicAuth env user = .next) ∧
    (∀ u, env.basicAuthUser = some u → u ≠ "" →
      (requireBasicAuth env user = .next ↔
        ∃ c, user = some c ∧ c.name = u ∧ env.basicAuthPass = some c.pass)) := by
  constructor
  · intro h
    simp [requireBasicAuth, h]
  · intro u hu hne
    have ht : truthyS env.basicAuthUser = true := by
      simp [truthyS, hu, bne_iff_ne, hne]
    have hif : ∀ b : Bool,
        ((if b then AuthResult.next else AuthResult.unauthorized) = AuthResult.next ↔ b = true) := by
      intro b
      cases b <;> simp
    rw [requireBasicAuth.eq_def, ht]
    simp only [Bool.not_true, Bool.false_eq_true, if_false]
    rw [hif]
    cases user with
    | none => simp [credentialsOk]
    | some c =>
      simp only [credentialsOk, hu, Bool.and_eq_true, beq_iff_eq, Option.some.injEq]
      constructor
      · rintro ⟨h1, h2⟩
        exact ⟨c, rfl, h1, h2.symm⟩
      · rintro ⟨d, hd, hdn, hdp⟩
        cases hd
        exact ⟨hdn, hdp.symm⟩

/-- C10 witness: a fully matching request is admitted. -/
theorem requireBasicAuth_characterization_witness :
    requireBasicAuth { basicAuthUser := some "u", basicAuthPass := some "p" } (some ⟨"u", "p"⟩) = .next :=
  ((requireBasicAuth_characterization
      { basicAuthUser := some "u", basicAuthPass := some "p" } (some ⟨"u", "p"⟩)).2
    "u" rfl (by decide)).2 ⟨⟨"u", "p"⟩, rfl, rfl, rfl⟩

/-- C10 counterexample: `BASIC_AUTH_USER` set (to the empty string) and no
credentials supplied, yet the request is admitted — the claim as stated
requires a 401 here, since it admits only matching credentials whenever the
variable is set at all. -/
theorem requireBasicAuth_empty_user_admits :
    ({ basicAuthUser := some "" } : Env).basicAuthUser ≠ none ∧
    requireBasicAuth { basicAuthUser := some "" } none = .next := by
  refine ⟨by decide, by decide⟩

/-! ## C7 — posterPath normalization -/

/-- C7: for an input shaped `{posterPath: "/x.jpg"}` — a single object whose
only URL-bearing field is a trimmed root-relative path (not
protocol-relative, not absolute) — normalization returns exactly one URL:
the fixed TMDb CDN base concatenated with the path. -/
theorem makeImageUrlsArray_posterPath (env : Env) (s : String)
    (h1 : strStartsWith s "/" = true)
    (h2 : strStartsWith s "//" = false)
    (h3 : strStartsWith s "http://" = false)
    (h4 : strStartsWith s "https://" = false)
    (h5 : strTrim s = s) :
    makeImageUrlsArray env (.obj [("posterPath", .str s)]) =
      ["https://image.tmdb.org/t/p/w500" ++ s] := by
  have hne : s ≠ "" := by
    intro he
    rw [he] at h1
    exact absurd h1 (by decide)
  have hb : (s != "") = true := by simp [bne_iff_ne, hne]
  have hcand : objectImagesCandidate (.obj [("posterPath", .str s)]) =
      jsOrV (.str s) (jsOrV .undefined .undefined) := rfl
  have hcand2 : jsOrV (JsVal.str s) (jsOrV .undefined .undefined) = .str s := by
    simp [jsOrV, JsVal.truthy, hb]
  have h6 : ("https://image.tmdb.org/t/p/w500" ++ s) ≠ "" := append_ne_empty_right hne
  simp [makeImageUrlsArray, makeImageUrlsArrayBody, JsVal.truthy, hcand.trans hcand2,
        makeImageUrl, makeImageUrlBody, arrayFirst, JsVal.typeofObject, afterExtract,
        jsToString, h5, hne, hb, resolveUrlString, h1, h2, h3, h4, h6]

/-- C7 witness at the spec's concrete input. -/
theorem makeImageUrlsArray_posterPath_witness :
    makeImageUrlsArray {} (.obj [("posterPath", .str "/x.jpg")]) =
      ["https://image.tmdb.org/t/p/w500/x.jpg"] := by
  rw [makeImageUrlsArray_posterPath {} "/x.jpg" (by decide) (by decide) (by decide)
    (by decide) (by decide)]
  decide

/-! ## C8 — ordered-collection normalization -/

/-- C8: on an ordered collection, normalization processes each element
independently through `makeImageUrl` (one level of recursion only, at most
one URL per element), keeps all non-empty results in order — duplicates
included, with the multiplicity of each URL equal to the number of elements
normalizing to it — and drops exactly the elements normalizing to
null/empty. -/
theorem makeImageUrlsArray_order_preserving (env : Env) (xs : List JsVal) :
    makeImageUrlsArray env (.arr xs) = xs.filterMap (makeImageUrl env) ∧
    (∀ u : String, (makeImageUrlsArray env (.arr xs)).count u =
      xs.countP (fun x => makeImageUrl env x == some u)) ∧
    (makeImageUrlsArray env (.arr xs)).length ≤ xs.length := by
  have filt : ∀ l : List JsVal,
      (l.map (makeImageUrl env)).filterMap jsFilterBool = l.filterMap (makeImageUrl env) := by
    intro l
    induction l with
    | nil => rfl
    | cons x t ih =>
      rw [List.map_cons, List.filterMap_cons, List.filterMap_cons, ih]
      cases hx : makeImageUrl env x with
      | none => rfl
      | some s =>
        have hs : s ≠ "" := fun he => makeImageUrl_ne_some_empty env x (he ▸ hx)
        simp only [jsFilterBool]
        rw [if_neg hs]
  have key : makeImageUrlsArray env (.arr xs) = xs.filterMap (makeImageUrl env) := by
    have hrw : makeImageUrlsArray env (.arr xs) =
        (xs.map (makeImageUrl env)).filterMap jsFilterBool := rfl
    rw [hrw, filt]
  refine ⟨key, fun u => ?_, ?_⟩
  · rw [key]
    exact List.count_filterMap u (makeImageUrl env) xs
  · rw [key]
    exact List.length_filterMap_le (makeImageUrl env) xs

/-! ## C9 — totality of the normalizer -/

/-- C9: normalization never lets an exception escape and unexpected shapes
yield an empty result: the body of `makeImageUrlsArray` always returns
normally with the wrapper's value; the one genuinely throwing input shape
(`[null]`, whose first element passes the `typeof === 'object'` test and
then has a property read) is caught by `makeImageUrl`'s handler and yields
null; and an object carrying none of the recognized URL fields normalizes
to null / the empty sequence. -/
theorem imageNormalization_never_throws (env : Env) :
    (∀ v, makeImageUrlsArrayBody env v = Except.ok (makeImageUrlsArray env v)) ∧
    makeImageUrlBody env (.arr [.null]) = Except.error () ∧
    makeImageUrl env (.arr [.null]) = none ∧
    (∀ fields, (urlFieldChain (.obj fields)).truthy = false →
      makeImageUrl env (.obj fields) = none ∧ makeImageUrlsArray env (.obj fields) = []) := by
  have h1 : ∀ v, ∃ l, makeImageUrlsArrayBody env v = Except.ok l := by
    intro v
    unfold makeImageUrlsArrayBody
    split
    · exact ⟨_, rfl⟩
    · split
      · exact ⟨_, rfl⟩
      · split <;> exact ⟨_, rfl⟩
      · split <;> exact ⟨_, rfl⟩
  have hmf : ∀ w : JsVal, w.truthy = false → makeImageUrl env w = none := by
    intro w hw
    simp [makeImageUrl, makeImageUrlBody, hw]
  refine ⟨fun v => ?_, rfl, rfl, fun fields hf => ?_⟩
  · rcases h1 v with ⟨l, hl⟩
    rw [hl]
    simp [makeImageUrlsArray, hl]
  · simp only [urlFieldChain, jsOrV_truthy_false] at hf
    obtain ⟨p1, p2, p3, p4, p5, p6, p7⟩ := hf
    have hcand : (objectImagesCandidate (.obj fields)).truthy = false := by
      simp only [objectImagesCandidate, jsOrV_truthy_false]
      exact ⟨p1, p2, p3, p4, p5, p6⟩
    have hchain : (urlFieldChain (.obj fields)).truthy = false := by
      simp only [urlFieldChain, jsOrV_truthy_false]
      exact ⟨p1, p2, p3, p4, p5, p6, p7⟩
    have htr : (JsVal.obj fields).truthy = true := rfl
    have haf : arrayFirst (.obj fields) = .obj fields := rfl
    constructor
    · simp [makeImageUrl, makeImageUrlBody, haf, htr, JsVal.typeofObject, afterExtract, hchain]
    · simp [makeImageUrlsArray, makeImageUrlsArrayBody, htr, hmf _ hcand]

/-- C9 witness: an object with no URL-bearing field yields null / empty. -/
theorem imageNormalization_never_throws_witness :
    makeImageUrl {} (.obj [("foo", .str "x")]) = none ∧
    makeImageUrlsArray {} (.obj [("foo", .str "x")]) = [] :=
  (imageNormalization_never_throws {}).2.2.2 [("foo", .str "x")] (by decide)

/-! ## C4 — default-policy precedence -/

/-- A JS `||` of optional strings is truthy when its right operand is. -/
theorem truthyS_jsOr_right {a b : Option String} (h : truthyS b = true) :
    truthyS (jsOr a b) = true := by
  unfold jsOr
  split
  · assumption
  · exact h

/-- A truthy optional string yields a non-empty value under `getD`. -/
theorem getD_ne_empty {x : Option String} (h : truthyS x = true) (d : String) :
    x.getD d ≠ "" := by
  cases x with
  | none => simp [truthyS] at h
  | some s =>
    simp only [truthyS, bne_iff_ne] at h
    simpa using h

/-- C4 (amended): the storage root follows override > first-returned >
environment fallback (> literal), but the quality-tier id follows override >
ENVIRONMENT fallback > first-returned (> literal 1): when no override is
given, a configured `*_QUALITY_PROFILE_ID` wins over the first
service-returned profile, in the interactive handlers and in the second
variant's `radarrGetDefaults` alike. -/
theorem defaults_precedence (env : Env) (meta : Meta) (req : MovieReq)
    (sreq : SeriesReq) (svc : RadarrSvc) :
    (∀ r, req.rootFolderPath = some r → r ≠ "" → movieRoot req meta env = r) ∧
    (truthyS req.rootFolderPath = false → truthyS (firstRootPath meta) = true →
      movieRoot req meta env = (firstRootPath meta).getD "") ∧
    (truthyS req.rootFolderPath = false → truthyS (firstRootPath meta) = false →
      truthyS env.radarrRoot = true → movieRoot req meta env = env.radarrRoot.getD "") ∧
    (truthyI req.qualityProfileId = true → movieQp req meta env = req.qualityProfileId) ∧
    (truthyI req.qualityProfileId = false → truthyS env.radarrQualityProfileId = true →
      movieQp req meta env = jsNumberOf env.radarrQualityProfileId) ∧
    (truthyI req.qualityProfileId = false → truthyS env.radarrQualityProfileId = false →
      truthyI (firstQpId meta) = true → movieQp req meta env = firstQpId meta) ∧
    (∀ r, sreq.rootFolderPath = some r → r ≠ "" → seriesRoot sreq meta env = r) ∧
    (truthyS sreq.rootFolderPath = false → truthyS (firstRootPath meta) = true →
      seriesRoot sreq meta env = (firstRootPath meta).getD "") ∧
    (truthyS sreq.rootFolderPath = false → truthyS (firstRootPath meta) = false →
      truthyS env.sonarrRoot = true → seriesRoot sreq meta env = env.sonarrRoot.getD "") ∧
    (truthyI sreq.qualityProfileId = true → seriesQp sreq meta env = sreq.qualityProfileId) ∧
    (truthyI sreq.qualityProfileId = false → truthyS env.sonarrQualityProfileId = true →
      seriesQp sreq meta env = jsNumberOf env.sonarrQualityProfileId) ∧
    (truthyI sreq.qualityProfileId = false → truthyS env.sonarrQualityProfileId = false →
      truthyI (firstQpId meta) = true → seriesQp sreq meta env = firstQpId meta) ∧
    (∀ roots qps d, svc.rootfolder = .ok roots → svc.qualityprofile = .ok qps →
      radarrGetDefaults2 env svc = .ok d →
      (truthyS env.radarrQualityProfileId = true →
        d.qualityProfileId = jsNumberOf env.radarrQualityProfileId) ∧
      (∀ r rest, roots = r :: rest → d.rootFolderPath = r.path)) := by
  refine ⟨?_, ?_, ?_, ?_, ?_, ?_, ?_, ?_, ?_, ?_, ?_, ?_, ?_⟩
  · intro r hr hne
    have htr : truthyS (some r) = true := by simp [truthyS, bne_iff_ne, hne]
    simp [movieRoot, jsOr, hr, htr]
  · intro h1 h2
    simp [movieRoot, jsOr, h1, h2]
    cases hf : firstRootPath meta with
    | none => rw [hf] at h2; simp [truthyS] at h2
    | some s => simp
  · intro h1 h2 h3
    simp [movieRoot, jsOr, h1, h2, h3]
    cases he : env.radarrRoot with
    | none => rw [he] at h3; simp [truthyS] at h3
    | some s => simp
  · intro h
    simp [movieQp, h]
  · intro h1 h2
    simp [movieQp, h1, h2]
  · intro h1 h2 h3
    simp [movieQp, h1, h2, h3]
  · intro r hr hne
    have htr : truthyS (some r) = true := by simp [truthyS, bne_iff_ne, hne]
    simp [seriesRoot, jsOr, hr, htr]
  · intro h1 h2
    simp [seriesRoot, jsOr, h1, h2]
    cases hf : firstRootPath meta with
    | none => rw [hf] at h2; simp [truthyS] at h2
    | some s => simp
  · intro h1 h2 h3
    simp [seriesRoot, jsOr, h1, h2, h3]
    cases he : env.sonarrRoot with
    | none => rw [he] at h3; simp [truthyS] at h3
    | some s => simp
  · intro h
    simp [seriesQp, h]
  · intro h1 h2
    simp [seriesQp, h1, h2]
  · intro h1 h2 h3
    simp [seriesQp, h1, h2, h3]
  · intro roots qps d hroots hqps hd
    rw [radarrGetDefaults2.eq_def, hroots, hqps] at hd
    have hd2 : d =
        { rootFolderPath :=
            match roots.head? with
            | some r => r.path
            | none => (jsOr env.radarrRoot (some "/movies")).getD "/movies"
          qualityProfileId :=
            if truthyS env.radarrQualityProfileId then jsNumberOf env.radarrQualityProfileId
            else
              match qps.head? with
              | some q => some q.id
              | none => some 1 } := by
      cases hd
      rfl
    constructor
    · intro henv
      rw [hd2]
      simp [henv]
    · intro r rest hr
      rw [hd2]
      simp [hr]

/-- C4 witness: with no override, the service's first root is used, and with
no override but a configured environment quality id, the environment value —
not the service's first profile — is used. -/
theorem defaults_precedence_witness :
    movieRoot { tmdbId := some 1 } ⟨[⟨"/data"⟩], []⟩ {} = "/data" ∧
    movieQp { tmdbId := some 1 } ⟨[], [⟨2⟩]⟩ { radarrQualityProfileId := some "5" } = some 5 := by
  constructor
  · have := (defaults_precedence {} ⟨[⟨"/data"⟩], []⟩ { tmdbId := some 1 } {} {}).2.1
      (by decide) (by decide)
    simpa using this
  · have := (defaults_precedence { radarrQualityProfileId := some "5" } ⟨[], [⟨2⟩]⟩
      { tmdbId := some 1 } {} {}).2.2.2.2.1 (by decide) (by decide)
    simpa using this

/-- C4 counterexample: no caller override, the service returns a first
quality profile (id 2), and a configured fallback exists (id 5): the code
picks the environment value 5, while the claim requires the first-returned
value 2 (configured fallback only when the service returned none). -/
theorem qualityPrecedence_env_beats_service :
    movieQp { tmdbId := some 1 } ⟨[], [⟨2⟩]⟩ { radarrQualityProfileId := some "5" } = some 5 ∧
    firstQpId ⟨[], [⟨2⟩]⟩ = some 2 ∧
    ({ tmdbId := some 1 } : MovieReq).qualityProfileId = none := by
  refine ⟨by decide, by decide, rfl⟩

/-! ## C5 — AddDefaults invariant -/

/-- C5 (amended): the interactive handlers always place a non-empty storage
root in the body (literal last resorts `/movies` and `/tv`) and place the
quality id 1 when override, environment value and service-returned first
profile are all absent/falsy; `sonarrAdd` (batch path) however places
`SONARR_ROOT || SONARR_ROOT_PATH` into the body unchanged — when neither
variable is configured the submitted body carries NO root folder path, no
fallback being substituted — and places quality id 1 when
`SONARR_QUALITY_PROFILE_ID` is unset. -/
theorem addDefaults_invariant (env : Env) (meta : Meta) (req : MovieReq)
    (sreq : SeriesReq) (s : Series) :
    movieRoot req meta env ≠ "" ∧
    seriesRoot sreq meta env ≠ "" ∧
    (truthyI req.qualityProfileId = false → truthyS env.radarrQualityProfileId = false →
      truthyI (firstQpId meta) = false → movieQp req meta env = some 1) ∧
    (truthyI sreq.qualityProfileId = false → truthyS env.sonarrQualityProfileId = false →
      truthyI (firstQpId meta) = false → seriesQp sreq meta env = some 1) ∧
    (truthyS env.sonarrQualityProfileId = false →
      (sonarrAddBody env s).qualityProfileId = some 1) ∧
    (sonarrAddBody env s).rootFolderPath = jsOr env.sonarrRoot env.sonarrRootPath := by
  refine ⟨?_, ?_, ?_, ?_, ?_, rfl⟩
  · have ht : truthyS (jsOr req.rootFolderPath
        (jsOr (firstRootPath meta) (jsOr env.radarrRoot (some "/movies")))) = true :=
      truthyS_jsOr_right (truthyS_jsOr_right (truthyS_jsOr_right (by decide)))
    unfold movieRoot
    exact getD_ne_empty ht _
  · have ht : truthyS (jsOr sreq.rootFolderPath
        (jsOr (firstRootPath meta) (jsOr env.sonarrRoot (some "/tv")))) = true :=
      truthyS_jsOr_right (truthyS_jsOr_right (truthyS_jsOr_right (by decide)))
    unfold seriesRoot
    exact getD_ne_empty ht _
  · intro h1 h2 h3
    simp [movieQp, h1, h2, h3]
  · intro h1 h2 h3
    simp [seriesQp, h1, h2, h3]
  · intro h
    simp [sonarrAddBody, h]

/-- C5 witness: with nothing configured anywhere, the movie handler still
submits the literal root `/movies` and quality id 1. -/
theorem addDefaults_invariant_witness :
    movieRoot {} ⟨[], []⟩ {} ≠ "" ∧ movieQp {} ⟨[], []⟩ {} = some 1 :=
  ⟨(addDefaults_invariant {} ⟨[], []⟩ {} {} {}).1,
   (addDefaults_invariant {} ⟨[], []⟩ {} {} {}).2.2.1 (by decide) (by decide) (by decide)⟩

/-- C5 counterexample: with neither `SONARR_ROOT` nor `SONARR_ROOT_PATH`
set, `sonarrAdd` submits a body with an ABSENT root folder path — no
fallback is substituted before the request is sent, and the service's
rejection of that body is silently swallowed. -/
theorem sonarrAdd_submits_absent_root :
    (sonarrAddBody {} { tvdbId := some 5, title := some "T" }).rootFolderPath = none ∧
    sonarrAdd {}
      { postSeries := fun b =>
          if b.rootFolderPath = none then .error { data := .nonArray, message := "bad root" }
          else .ok {} }
      { tvdbId := some 5, title := some "T" } = none :=
  ⟨rfl, rfl⟩

/-! ## C6 — notification behaviour -/

/-- C6 (amended): for the interactive single-item add handlers, a
notification is triggered exactly on `added` outcomes — a confirmed
`exists` outcome does NOT notify; the Telegram transport's success or
failure never influences the HTTP response; and without configured
credentials the send is skipped. -/
theorem notify_behavior (env : Env) (rsvc : RadarrSvc) (ssvc : SonarrSvc)
    (req : MovieReq) (sreq : SeriesReq) (b1 b2 : Bool) :
    ((addMovieHandler env rsvc b1 req).resp = (addMovieHandler env rsvc b2 req).resp) ∧
    ((addMovieHandler env rsvc b1 req).notifyCalled = true ↔
      ∃ m, (addMovieHandler env rsvc b1 req).resp = .added m) ∧
    (notifySendAttempt env = false →
      (addMovieHandler env rsvc b1 req).notifySendAttempted = false) ∧
    ((addSeriesHandler env ssvc b1 sreq).resp = (addSeriesHandler env ssvc b2 sreq).resp) ∧
    ((addSeriesHandler env ssvc b1 sreq).notifyCalled = true ↔
      ∃ x, (addSeriesHandler env ssvc b1 sreq).resp = .added x) ∧
    (notifySendAttempt env = false →
      (addSeriesHandler env ssvc b1 sreq).notifySendAttempted = false) := by
  refine ⟨rfl, ?_, ?_, rfl, ?_, ?_⟩
  · unfold addMovieHandler
    repeat' split <;> try simp
  · intro h
    unfold addMovieHandler
    repeat' split <;> try simp [h]
  · unfold addSeriesHandler
    repeat' split <;> try simp
  · intro h
    unfold addSeriesHandler
    repeat' split <;> try simp [h]

/-- C6 witness: a successful add with configured credentials calls the
notifier, which attempts the send. -/
theorem notify_behavior_witness :
    (addMovieHandler { telegramToken := some "t", telegramNotifyChatId := some "c" }
        { postMovie := fun _ => .ok { id := some 1, tmdbId := some 7 } } true
        { tmdbId := some 7 }).notifyCalled = true :=
  (notify_behavior { telegramToken := some "t", telegramNotifyChatId := some "c" }
      { postMovie := fun _ => .ok { id := some 1, tmdbId := some 7 } } {}
      { tmdbId := some 7 } {} true true).2.1.mpr ⟨{ id := some 1, tmdbId := some 7 }, rfl⟩

/-- C6 counterexample: a run ending in a confirmed `exists` outcome, with
notification credentials configured, never calls the notifier — the claim
requires a notification for confirmed `exists` outcomes of direct
user-initiated adds. -/
theorem exists_outcome_does_not_notify :
    (addMovieHandler { telegramToken := some "t", telegramNotifyChatId := some "c" }
        { postMovie := fun _ => .error { data := .arr [{ errorCode := some "MovieExistsValidator" }] }
          getMovieByTmdb := fun _ => .ok [{ id := some 9, tmdbId := some 7 }] } true
        { tmdbId := some 7 }).resp = .existing { id := some 9, tmdbId := some 7 } ∧
    (addMovieHandler { telegramToken := some "t", telegramNotifyChatId := some "c" }
        { postMovie := fun _ => .error { data := .arr [{ errorCode := some "MovieExistsValidator" }] }
          getMovieByTmdb := fun _ => .ok [{ id := some 9, tmdbId := some 7 }] } true
        { tmdbId := some 7 }).notifyCalled = false ∧
    notifySendAttempt { telegramToken := some "t", telegramNotifyChatId := some "c" } = true :=
  ⟨rfl, rfl, rfl⟩

/-! ## C2 — exists signal with no record found -/

/-- C2 (amended): when an add rejection carries a positive exists signal but
none of the three fallback lookup strategies finds the stored record,
`radarrAdd` does NOT report a record-less exists — it rethrows the original
rejection, and the outcome is an error carrying that rejection. -/
theorem radarrAdd_rethrows_when_nothing_found (env : Env) (svc : RadarrSvc)
    (m : Movie) (e : HttpErr) (ex : ErrElem) (roots : List RootFolder)
    (qps : List QualityProfile)
    (hroots : svc.rootfolder = .ok roots)
    (hqps : svc.qualityprofile = .ok qps)
    (hpost : ∀ b, svc.postMovie b = .error e)
    (hsig : existsSignal e.data = some ex)
    (hbyid : ∀ t, svc.getMovieByTmdb t = .ok [])
    (hterm : ∀ t, svc.lookupTerm t = .ok [])
    (hall : svc.getAllMovies = .ok []) :
    radarrAdd env svc (some m) = .error e := by
  have hdata : (e.data != RespData.noData) = true := by
    cases hd : e.data with
    | noData => rw [hd] at hsig; simp [existsSignal] at hsig
    | nonArray => rfl
    | arr es => rfl
  have htry : radarrAddTry env svc (some m) = .error e := by
    rw [radarrAddTry.eq_def, radarrGetDefaults2.eq_def, hroots, hqps]
    exact hpost _
  have hfetch : radarrAddFetchExisting svc (some m) ex e = .error e := by
    simp only [radarrAddFetchExisting, hbyid, hterm, hall]
    simp
  rw [radarrAdd.eq_def, htry]
  simp only [hdata, if_true, hsig, hfetch]

/-- C2 witness: concrete service where the POST rejects with
`MovieExistsValidator` and all three strategies return empty. -/
theorem radarrAdd_rethrows_when_nothing_found_witness :
    radarrAdd {}
      { postMovie := fun _ =>
          .error { data := .arr [{ errorCode := some "MovieExistsValidator" }] } }
      (some { tmdbId := some 7 }) =
      .error { data := .arr [{ errorCode := some "MovieExistsValidator" }] } :=
  radarrAdd_rethrows_when_nothing_found {}
    { postMovie := fun _ =>
        .error { data := .arr [{ errorCode := some "MovieExistsValidator" }] } }
    { tmdbId := some 7 } { data := .arr [{ errorCode := some "MovieExistsValidator" }] }
    { errorCode := some "MovieExistsValidator" } [] []
    rfl rfl (fun _ => rfl) (by decide) (fun _ => rfl) (fun _ => rfl) rfl

/-- C2 counterexample: at the same concrete input — a rejection whose error
array carries `MovieExistsValidator` (positive exists signal) and empty
results from all three fallback strategies — `radarrAdd` produces the
original error, not a record-less exists outcome: the claim as stated is
false on the code. -/
theorem radarrAdd_no_recordless_exists :
    existsSignal (RespData.arr [{ errorCode := some "MovieExistsValidator" }]) =
      some { errorCode := some "MovieExistsValidator" } ∧
    radarrAdd {}
      { postMovie := fun _ =>
          .error { data := .arr [{ errorCode := some "MovieExistsValidator" }],
                   message := "422" } }
      (some { tmdbId := some 8 }) =
      .error { data := .arr [{ errorCode := some "MovieExistsValidator" }],
               message := "422" } :=
  ⟨by decide, rfl⟩

/-! ## C1 — reconciliation gating -/

/-- C1 (amended): in the movie add path, the stored-record reconciliation
runs exactly when the rejection carries the exists signal (structured
`MovieExistsValidator` code or case-insensitive `already been added`
message); absent the signal the outcome is an error carrying the original
rejection; with the signal, the outcome is `exists` only when the lookup
finds the stored record, and otherwise the error.  In the series add path,
however, ANY rejection carrying truthy response data triggers the
full-inventory reconciliation, with no exists-signal check: the outcome is
`exists` exactly when the scan finds a match, the original error otherwise. -/
theorem reconciliation_gating (env : Env) (rsvc : RadarrSvc) (ssvc : SonarrSvc)
    (tg : Bool) (req : MovieReq) (sreq : SeriesReq) (e : HttpErr) :
    (truthyI req.tmdbId = true →
      rsvc.postMovie (movieAddBody req (radarrGetDefaults1 rsvc) env) = .error e →
      ((addMovieHandler env rsvc tg req).reconAttempted = (existsSignal e.data).isSome ∧
       (existsSignal e.data = none →
         (addMovieHandler env rsvc tg req).resp = .failed e.details) ∧
       (∀ ex, existsSignal e.data = some ex →
         (addMovieHandler env rsvc tg req).resp =
           (match rsvc.getMovieByTmdb req.tmdbId with
            | .ok ms =>
              match ms.head? with
              | some m => .existing m
              | none => .failed e.details
            | .error _ => .failed e.details)))) ∧
    ((!truthyI sreq.tvdbId && !truthyS sreq.imdbId && !truthyS sreq.title) = false →
      ssvc.postSeries (seriesAddBody sreq (sonarrGetDefaults1 ssvc) env) = .error e →
      ((addSeriesHandler env ssvc tg sreq).reconAttempted = (e.data != RespData.noData) ∧
       (e.data = RespData.noData →
         (addSeriesHandler env ssvc tg sreq).resp = .failed e.details) ∧
       (e.data ≠ RespData.noData →
         (addSeriesHandler env ssvc tg sreq).resp =
           (match ssvc.getAllSeries with
            | .ok all =>
              match all.find? (seriesMatches sreq) with
              | some m => .existing m
              | none => .failed e.details
            | .error _ => .failed e.details)))) := by
  constructor
  · intro hreq hpost
    have hmain : addMovieHandler env rsvc tg req =
        (if e.data != RespData.noData then
          match existsSignal e.data with
          | some ex =>
            match rsvc.getMovieByTmdb (if truthyI req.tmdbId then req.tmdbId else ex.propertyValue) with
            | .ok ms =>
              match ms.head? with
              | some m => ⟨.existing m, true, false, false⟩
              | none => ⟨.failed e.details, true, false, false⟩
            | .error _ => ⟨.failed e.details, true, false, false⟩
          | none => ⟨.failed e.details, false, false, false⟩
        else ⟨.failed e.details, false, false, false⟩) := by
      rw [addMovieHandler.eq_def, hreq]
      simp only [Bool.not_true, Bool.false_eq_true, if_false, hpost]
    refine ⟨?_, ?_, ?_⟩
    · rw [hmain]
      cases hd : e.data with
      | noData => simp [existsSignal]
      | nonArray => simp [existsSignal]
      | arr es =>
        simp only [bne_iff_ne, ne_eq, reduceCtorEq, not_false_eq_true, if_true]
        cases hs : existsSignal (RespData.arr es) with
        | none => simp
        | some ex =>
          simp only [Option.isSome_some]
          split <;> try rfl
          split <;> rfl
    · intro hnone
      rw [hmain, hnone]
      cases hd : e.data with
      | noData => simp
      | nonArray => simp
      | arr es => simp
    · intro ex hex
      have hd : (e.data != RespData.noData) = true := by
        cases hdd : e.data with
        | noData => rw [hdd] at hex; simp [existsSignal] at hex
        | nonArray => rfl
        | arr es => rfl
      rw [hmain, hd, if_pos rfl, hex]
      simp only [if_pos hreq]
      split <;> try rfl
      split <;> rfl
  · intro hreq hpost
    have hmain : addSeriesHandler env ssvc tg sreq =
        (if e.data != RespData.noData then
          match ssvc.getAllSeries with
          | .ok all =>
            match all.find? (seriesMatches sreq) with
            | some m => ⟨.existing m, true, false, false⟩
            | none => ⟨.failed e.details, true, false, false⟩
          | .error _ => ⟨.failed e.details, true, false, false⟩
        else ⟨.failed e.details, false, false, false⟩) := by
      rw [addSeriesHandler.eq_def, hreq]
      simp only [Bool.false_eq_true, if_false, hpost]
    refine ⟨?_, ?_, ?_⟩
    · rw [hmain]
      cases hd : (e.data != RespData.noData) with
      | false => simp
      | true =>
        simp only [if_true]
        split <;> try rfl
        split <;> rfl
    · intro hnone
      rw [hmain, hnone]
      simp
    · intro hne
      have hd : (e.data != RespData.noData) = true := by simpa [bne_iff_ne] using hne
      rw [hmain, hd, if_pos rfl]
      split <;> try rfl
      split <;> rfl

/-- C1 witness: a movie rejection with no exists signal propagates as an
error without reconciliation. -/
theorem reconciliation_gating_witness :
    (addMovieHandler {}
        { postMovie := fun _ => .error { data := .nonArray, message := "boom" } } true
        { tmdbId := some 7 }).resp = .failed (.fromData .nonArray) :=
  ((reconciliation_gating {}
      { postMovie := fun _ => .error { data := .nonArray, message := "boom" } } {} true
      { tmdbId := some 7 } {} { data := .nonArray, message := "boom" }).1
    (by decide) rfl).2.1 rfl

/-- C1 counterexample: a series add rejected by an UNRELATED validation
error (no exists signal anywhere) still triggers the inventory-scan
reconciliation and even returns `exists` when a record matches —
contradicting "reconciliation runs only if the rejection indicates already
exists" and "otherwise the outcome is an error". -/
theorem series_reconciles_without_signal :
    existsSignal (RespData.arr [{ errorCode := some "RootFolderValidator" }]) = none ∧
    (addSeriesHandler {}
        { postSeries := fun _ =>
            .error { data := .arr [{ errorCode := some "RootFolderValidator" }] }
          getAllSeries := .ok [{ tvdbId := some 5, title := some "T" }] } true
        { tvdbId := some 5 }).reconAttempted = true ∧
    (addSeriesHandler {}
        { postSeries := fun _ =>
            .error { data := .arr [{ errorCode := some "RootFolderValidator" }] }
          getAllSeries := .ok [{ tvdbId := some 5, title := some "T" }] } true
        { tvdbId := some 5 }).resp = .existing { tvdbId := some 5, title := some "T" } :=
  ⟨by decide, rfl, rfl⟩

/-! ## C3 — batch sync independence -/

/-- C3 (amended): `syncList` produces exactly one outcome per list item, in
stored order, each determined solely by its own item; a failure thrown while
processing an item is captured as that item's error outcome (radarr path)
and never aborts the batch.  The sonarr path, however, cannot throw at all:
its lookup and add helpers swallow transport failures internally, so a
failed sonarr add is reported `ok` rather than `error` (and a failed sonarr
lookup as `not found`). -/
theorem syncList_per_item (env : Env) (rsvc : RadarrSvc) (ssvc : SonarrSvc)
    (target : String) (items : List Item) :
    (syncList env rsvc ssvc target items).length = items.length ∧
    (∀ i (h : i < items.length),
      (syncList env rsvc ssvc target items).get ⟨i, by simpa [syncList] using h⟩ =
        syncStep env rsvc ssvc target (items.get ⟨i, h⟩)) ∧
    (∀ item e, syncStepBody env rsvc ssvc target item = .error e →
      syncStep env rsvc ssvc target item = ⟨item, false, some (reasonOfErr e)⟩) ∧
    (∀ item, (syncStep env rsvc ssvc target item).item = item) ∧
    (∀ item, (target == "radarr") = false →
      ∃ o, syncStepBody env rsvc ssvc target item = .ok o) := by
  refine ⟨by simp [syncList], ?_, ?_, ?_, ?_⟩
  · intro i h
    simp [syncList]
  · intro item e hb
    unfold syncStep
    rw [hb]
  · intro item
    have hbody : ∀ o, syncStepBody env rsvc ssvc target item = .ok o → o.item = item := by
      intro o ho
      unfold syncStepBody at ho
      repeat' split at ho
      all_goals cases ho
      all_goals rfl
    unfold syncStep
    cases hb : syncStepBody env rsvc ssvc target item with
    | ok o => exact hbody o hb
    | error e => rfl
  · intro item h
    unfold syncStepBody
    simp only [h, Bool.false_and, Bool.false_eq_true, if_false]
    split
    · cases sonarrLookupImdb ssvc item.id with
      | none => exact ⟨_, rfl⟩
      | some lk => exact ⟨_, rfl⟩
    · exact ⟨_, rfl⟩

/-- C3 witness: a one-item list against an unsupported target still yields
its one outcome, and a sonarr-target step can never throw. -/
theorem syncList_per_item_witness :
    (syncList {} {} {} "sonarr" [⟨"imdb", "tt1", ""⟩]).get ⟨0, by simp [syncList]⟩ =
      syncStep {} {} {} "sonarr" ⟨"imdb", "tt1", ""⟩ ∧
    ∃ o, syncStepBody {} {} {} "sonarr" ⟨"imdb", "tt1", ""⟩ = .ok o :=
  ⟨(syncList_per_item {} {} {} "sonarr" [⟨"imdb", "tt1", ""⟩]).2.1 0 (by decide),
   (syncList_per_item {} {} {} "sonarr" [⟨"imdb", "tt1", ""⟩]).2.2.2.2
     ⟨"imdb", "tt1", ""⟩ (by decide)⟩

/-- C3 counterexample: a 3-item sonarr sync where item 2's add POST suffers
a transport failure still produces 3 outcomes — but outcome 2 is `ok`, not
`error`: `sonarrAdd` swallows the failure, contradicting "the failed item
marked as an error". -/
theorem sonarr_transport_failure_reported_ok :
    syncList {} {}
      { lookupSeries := fun t =>
          if t == "imdb:tt1" then .ok [{ tvdbId := some 1, title := some "A" }]
          else if t == "imdb:tt2" then .ok [{ tvdbId := some 2, title := some "B" }]
          else .ok [{ tvdbId := some 3, title := some "C" }]
        postSeries := fun b =>
          if b.tvdbId == some 2 then .error { data := .noData, message := "socket hang up" }
          else .ok { tvdbId := some 9 } }
      "sonarr" [⟨"imdb", "tt1", ""⟩, ⟨"imdb", "tt2", ""⟩, ⟨"imdb", "tt3", ""⟩] =
      [⟨⟨"imdb", "tt1", ""⟩, true, none⟩, ⟨⟨"imdb", "tt2", ""⟩, true, none⟩,
       ⟨⟨"imdb", "tt3", ""⟩, true, none⟩] ∧
    ({ lookupSeries := fun t =>
          if t == "imdb:tt1" then .ok [{ tvdbId := some 1, title := some "A" }]
          else if t == "imdb:tt2" then .ok [{ tvdbId := some 2, title := some "B" }]
          else .ok [{ tvdbId := some 3, title := some "C" }]
       postSeries := fun b =>
          if b.tvdbId == some 2 then .error { data := .noData, message := "socket hang up" }
          else .ok { tvdbId := some 9 } } : SonarrSvc).postSeries
      (sonarrAddBody {} { tvdbId := some 2, title := some "B" }) =
      .error { data := .noData, message := "socket hang up" } :=
  ⟨rfl, rfl⟩

end RRR
